import Mathlib

/-!
Shallow embedding of `openhands/runtime/impl/docker/docker_runtime.py`
(the container lifecycle and connection state machine of the DockerRuntime),
together with theorems settling the frozen claims about it.

Conventions used throughout:
* machine integers are `Nat`/`Int` (ports are small naturals, no overflow
  arises in the source);
* Python exceptions are the inductive `PyExc`; fallible code returns
  `Except PyExc _`;
* Python dicts (insertion ordered) are association lists `List (String × String)`
  with `pyDictSet`/`pyDictUpdate` mirroring item assignment and `dict.update`;
* external collaborators (the docker engine, the OS port oracle, the HTTP
  health endpoint) are parameters: functions or observation records supplied
  to the embedded code, never baked-in constants.
-/

/-- Python exception values relevant to `docker_runtime.py`.

The `httpx`/`docker`/`tenacity` constructors model the third-party classes the
source names.  Modelled from the spec: the `AgentRuntime*` classes come from
`openhands.core.exceptions`, which is not part of the analysed sources; per the
spec's error taxonomy (§7) they are disconnection-class errors of their own,
distinct from the builtin `ConnectionError`, from the `httpx` network-error
classes and from `docker.errors.NotFound`, so they are separate constructors
here.  `unboundLocalError` models Python's `UnboundLocalError`, raised when a
function-local variable is read before any assignment to it has executed. -/
inductive PyExc where
  | connectionError
  | httpxNetworkError
  | httpxRemoteProtocolError
  | httpxHTTPStatusError
  | httpxConnectTimeout
  | dockerNotFound
  | dockerAPIError (msg : String)
  | agentRuntimeDisconnectedError (msg : String)
  | agentRuntimeNotFoundError (msg : String)
  | tenacityRetryError (cause : PyExc)
  | valueError (msg : String)
  | unboundLocalError (localName : String)
  | genericError
  deriving DecidableEq, Repr

/-- Source lines 42-57, `_is_retryable_wait_until_alive_error(exception)`:
unwrap `tenacity.RetryError` recursively, then test membership of the
`isinstance` tuple `(ConnectionError, httpx.NetworkError,
httpx.RemoteProtocolError, httpx.HTTPStatusError, httpx.ConnectTimeout,
docker.errors.NotFound)`. -/
def _is_retryable_wait_until_alive_error : PyExc → Bool
  | .tenacityRetryError cause => _is_retryable_wait_until_alive_error cause
  | .connectionError => true
  | .httpxNetworkError => true
  | .httpxRemoteProtocolError => true
  | .httpxHTTPStatusError => true
  | .httpxConnectTimeout => true
  | .dockerNotFound => true
  | _ => false

/-! ### Decimal rendering and parsing

The source stores ports in the container environment with Python `str(...)`
(lines 372, 374) and reads them back with `int(...)` (lines 482, 485).
`pyStrOfNat`/`pyNatOfString` embed Python's decimal rendering and (the
digits-only fragment of) decimal parsing of non-negative integers. -/

/-- The decimal digit character for `d < 10` (`'0'` is code point 48). -/
def digitChar (d : Nat) : Char := Char.ofNat (48 + d)

/-- Most-significant-first decimal digits of `n`; `fuel` only forces
termination and is irrelevant once `n < fuel`. -/
def decAux : Nat → Nat → List Char
  | 0, _ => []
  | fuel + 1, n =>
    if n < 10 then [digitChar n] else decAux fuel (n / 10) ++ [digitChar (n % 10)]

/-- Python `str(n)` for a non-negative integer `n`. -/
def pyStrOfNat (n : Nat) : String := String.mk (decAux (n + 1) n)

/-- Decimal value of a digit list, most significant first. -/
def decValue (l : List Char) : Nat := l.foldl (fun a c => a * 10 + (c.toNat - 48)) 0

/-- Python `int(s)` restricted to plain non-empty digit strings (the only
shape this code ever feeds it); anything else is a parse failure
(`ValueError` in Python). -/
def pyNatOfString (s : String) : Option Nat :=
  if s.data ≠ [] ∧ s.data.all Char.isDigit then some (decValue s.data) else none


/-! ### Python dict as an insertion-ordered association list -/

/-- Python `k in d` for a dict. -/
def pyHasKey (d : List (String × String)) (k : String) : Bool :=
  d.any (fun kv => kv.1 == k)

/-- Item assignment `d[k] = v`: replace in place when the key exists, append otherwise. -/
def pyDictSet (d : List (String × String)) (k v : String) : List (String × String) :=
  if pyHasKey d k then d.map (fun kv => if kv.1 == k then (k, v) else kv)
  else d ++ [(k, v)]

/-- Python `d.update(us)`: item assignment for each pair of `us`, in order. -/
def pyDictUpdate (d us : List (String × String)) : List (String × String) :=
  us.foldl (fun acc kv => pyDictSet acc kv.1 kv.2) d

/-- Python `d.get(k)` (also `d[k]` when present). -/
def pyDictGet (d : List (String × String)) (k : String) : Option String :=
  (d.find? (fun kv => kv.1 == k)).map (·.2)

/-- The value the last `us` entry with key `k` carries, if any. -/
def pyLastVal (us : List (String × String)) (k : String) : Option String :=
  us.foldl (fun acc kv => if kv.1 == k then some kv.2 else acc) none


/-! ### Port allocator (source lines 36-39, 524-539) -/

/-- Source line 36. -/
def EXECUTION_SERVER_PORT_RANGE : Nat × Nat := (30000, 39999)

/-- Source line 37. -/
def VSCODE_PORT_RANGE : Nat × Nat := (40000, 49999)

/-- Source line 38. -/
def APP_PORT_RANGE_1 : Nat × Nat := (50000, 54999)

/-- Source line 39. -/
def APP_PORT_RANGE_2 : Nat × Nat := (55000, 59999)

/-- The `for _ in range(max_attempts)` loop of `_find_available_port`
(source lines 534-539).  `draw k` is the candidate returned by the k-th call
of `find_available_tcp_port(port_range[0], port_range[1])` (an external
OS oracle), `inUse` is `_is_port_in_use_docker` (source lines 524-530,
a pure read of the engine's currently running containers, assumed stable
across the loop), and `port` is the loop variable holding the last candidate
drawn (initially `port_range[1]`, line 533). -/
def findPortLoop (draw : Nat → Nat) (inUse : Nat → Bool) : Nat → Nat → Nat → Nat
  | _, 0, port => port
  | k, attemptsLeft + 1, _ =>
    let p := draw k
    if inUse p = false then p else findPortLoop draw inUse (k + 1) attemptsLeft p

/-- Source lines 532-539, `_find_available_port(port_range, max_attempts)`. -/
def _find_available_port (draw : Nat → Nat) (inUse : Nat → Bool)
    (port_range : Nat × Nat) (max_attempts : Nat) : Nat :=
  findPortLoop draw inUse 0 max_attempts port_range.2

/-! ### Container environment construction (source lines 370-387) -/

/-- Source lines 371-380: the `environment` dict literal, in insertion
order.  Python `or` on the platform string makes an unset platform fall
back to `'linux/amd64'` (modelled with `Option.getD`). -/
def computedEnvBase (container_port vscode_port : Nat) (platform : Option String) :
    List (String × String) :=
  [("port", pyStrOfNat container_port),
   ("PYTHONUNBUFFERED", "1"),
   ("VSCODE_PORT", pyStrOfNat vscode_port),
   ("PIP_BREAK_SYSTEM_PACKAGES", "1"),
   ("HOST_HOSTNAME", "host.docker.internal"),
   ("DOCKER_DEFAULT_PLATFORM", platform.getD "linux/amd64"),
   ("DOCKER_BUILDKIT", "1"),
   ("DOCKER_DNS", "8.8.8.8")]

/-- Source lines 371-384: the computed `environment` dict; the two DEBUG
entries are item assignments executed only when `self.config.debug or DEBUG`
holds (lines 382-384). -/
def computedEnvironment (container_port vscode_port : Nat) (platform : Option String)
    (debugMode : Bool) : List (String × String) :=
  if debugMode then
    pyDictSet (pyDictSet (computedEnvBase container_port vscode_port platform)
      "DEBUG" "true") "DOCKER_BUILDKIT_PROGRESS" "plain"
  else computedEnvBase container_port vscode_port platform

/-- Source line 387: `environment.update(self.config.sandbox.runtime_startup_env_vars)`
applied to the computed environment. -/
def buildEnvironment (container_port vscode_port : Nat) (platform : Option String)
    (debugMode : Bool) (runtime_startup_env_vars : List (String × String)) :
    List (String × String) :=
  pyDictUpdate (computedEnvironment container_port vscode_port platform debugMode)
    runtime_startup_env_vars

/-- Source lines 340-363: the keys of `port_mapping` in insertion order —
the control port first, the VSCode port when `self.vscode_enabled`, then each
application port.  `containers.run(..., ports=port_mapping)` publishes
exactly these container ports, so (stripped of their `'/tcp'` suffix, which
`_attach_to_container` strips back off, line 491) they are the container's
declared exposed-port set in the bridge-mode creation path. -/
def portMappingKeys (container_port vscode_port : Nat) (app_ports : List Nat)
    (vscode_enabled : Bool) : List Nat :=
  [container_port] ++ (if vscode_enabled then [vscode_port] else []) ++ app_ports

/-! ### Attachment resolver (source lines 474-502) -/

/-- Python `env_var.startswith(p + '=')` where `env_var` is the `Config.Env` entry
`key + "=" + value`.  For any `key` and `value`, the rendered string starts
with `p + "="` iff `key == p` or `key` itself starts with `p + "="`:
if `key.length < p.length + 1` the `'='` at position `key.length` of the
rendered string would have to equal a character of `p` (no `'='` occurs in
`"port"`/`"VSCODE_PORT"`), if `key.length = p.length` then `key = p`, and if
`key.length > p.length` the prefix lies inside `key`.  This pair-level test
is therefore exact for the two prefixes the source uses. -/
def envEntryTriggers (key p : String) : Bool :=
  key == p || (p.data ++ ['=']).isPrefixOf key.data

/-- Python `int(env_var.split(p + '=')[1])` for the entry `key + "=" + value`:
when `key == p` and `value` is a plain digit string (every value this code
writes), the split yields `value` and `int` parses it; an entry whose key
merely begins with `p + "="` would hand `int` a mangled slice — modelled,
like any non-numeric slice, as a parse failure. -/
def envEntryPortValue (key value p : String) : Option Nat :=
  if key == p then pyNatOfString value else none

/-- The port fields `_attach_to_container` rebuilds (source lines 480-496);
`_container_port` is assigned `_host_port` (line 483). -/
structure AttachedPorts where
  _host_port : Int
  _container_port : Int
  _vscode_port : Int
  _app_ports : List Int
  deriving DecidableEq, Repr

/-- One step of the `for env_var in config['Env']` scan (source lines
480-485): a `port=` match sets the host (and thus container) port, a
`VSCODE_PORT=` match sets the editor port; the state is `(host, vscode)`.
`none` marks a Python `int(...)` failure (`ValueError`). -/
def attachScanStep (st : Option (Int × Int)) (kv : String × String) :
    Option (Int × Int) :=
  st.bind fun hv =>
    if envEntryTriggers kv.1 "port" then
      (envEntryPortValue kv.1 kv.2 "port").map (fun n => ((n : Int), hv.2))
    else if envEntryTriggers kv.1 "VSCODE_PORT" then
      (envEntryPortValue kv.1 kv.2 "VSCODE_PORT").map (fun n => (hv.1, (n : Int)))
    else some hv

/-- Source lines 479-496: reconstruct the port assignment from the
container's `Config.Env` entries (as key/value pairs) and its declared
exposed ports (numeric, `'/tcp'` suffix already stripped as on line 491).
The ports start from the `-1` sentinels set in `__init__` (lines 94-97);
application ports are every exposed port differing from both recovered
ports, in declared order (lines 487-496). -/
def _attach_to_container (env : List (String × String)) (exposed_ports : List Nat) :
    Option AttachedPorts :=
  (env.foldl attachScanStep (some (-1, -1))).map fun hv =>
    { _host_port := hv.1, _container_port := hv.1, _vscode_port := hv.2,
      _app_ports := (exposed_ports.map (fun p => (p : Int))).filter
        (fun p => p != hv.1 && p != hv.2) }

/-! ### Network mode resolution (source lines 283-306) and the creation
call's `extra_hosts` argument (line 431) -/

/-- What probing the engine variant can observe: `docker_client.version()`
returns component data naming docker-desktop, returns other data, or raises. -/
inductive EngineDetect where
  | dockerDesktop
  | otherEngine
  | versionQueryRaises
  deriving DecidableEq, Repr

/-- Source lines 283-306: the Python locals `(network_mode, extra_hosts)`
after the network-mode block.  `none` in the second component means the
local `extra_hosts` was never assigned on the executed path — the only
assignment is line 302 in the non-desktop success branch; neither line
288 (`host`), line 298 (desktop), nor the `except` handler of lines 304-306
assigns it. -/
def resolveNetworkMode (use_host_network : Bool) (det : EngineDetect) :
    Option String × Option (List (String × String)) :=
  if use_host_network then (some "host", none)
  else
    match det with
    | .dockerDesktop => (some "bridge", none)
    | .otherEngine => (some "bridge", some [("host.docker.internal", "host-gateway")])
    | .versionQueryRaises => (some "bridge", none)

/-- Source line 431: `extra_hosts=extra_hosts` inside `containers.run(...)`.
Evaluating the argument reads the function-local `extra_hosts`; on a path
where no assignment to it executed, Python raises
`UnboundLocalError: local variable 'extra_hosts' referenced before
assignment` (inside the `try` of line 418, so it reaches the generic
`except Exception` of lines 465-472 and is re-raised). -/
def containersRunNetworkArgs (use_host_network : Bool) (det : EngineDetect) :
    Except PyExc (Option String × List (String × String)) :=
  let r := resolveNetworkMode use_host_network det
  match r.2 with
  | none => .error (.unboundLocalError "extra_hosts")
  | some extra_hosts => .ok (r.1, extra_hosts)

/-! ### Creation conflict handling (source lines 418-472) -/

/-- Whether `needle` occurs as a contiguous sublist of the second list. -/
def strOccurs (needle : List Char) : List Char → Bool
  | [] => needle.isEmpty
  | c :: t => needle.isPrefixOf (c :: t) || strOccurs needle t

/-- Python `needle in haystack` on strings (substring containment), used by
`'409' in str(e)` on line 450. -/
def pyInStr (needle haystack : String) : Bool :=
  strOccurs needle.data haystack.data

/-- Outcome of one `containers.run(...)` call: success, a
`docker.errors.APIError` whose `str(e)` is `msg`, or some other exception. -/
inductive CreateOutcome where
  | ok
  | apiError (msg : String)
  | otherException
  deriving DecidableEq, Repr

/-- Result of the creation/conflict recursion, with the number of
`containers.run` calls made and of `stop_all_containers(self.container_name)`
removals performed. -/
inductive InitCreateResult where
  | success (creationAttempts removals : Nat)
  | raised (e : PyExc) (creationAttempts removals : Nat)
  | outOfTrace
  deriving DecidableEq, Repr

/-- Source lines 418-472: the `try: containers.run ... except APIError`
conflict handling of `_init_container`.  Each `containers.run` call consumes
the next element of `outcomes`.  A 409 (`'409' in str(e)`) removes the
conflicting container by name and recurses into the full sequence
(`return self._init_container()`, line 456); any other `APIError` re-raises;
any other exception closes and re-raises.  `outOfTrace` marks a trace too
short to determine the result — the real recursion would simply keep
consuming further creation outcomes. -/
def initCreateLoop : List CreateOutcome → InitCreateResult
  | [] => .outOfTrace
  | o :: rest =>
    match o with
    | .ok => .success 1 0
    | .apiError msg =>
      if pyInStr "409" msg then
        match initCreateLoop rest with
        | .success c r => .success (c + 1) (r + 1)
        | .raised e c r => .raised e (c + 1) (r + 1)
        | .outOfTrace => .outOfTrace
      else .raised (.dockerAPIError msg) 1 0
    | .otherException => .raised .genericError 1 0

/-! ### Health monitor body (source lines 238-277) -/

/-- What one probe round can observe about the container.  `ipAddress` and
`gateway` are the `NetworkSettings` fields, `""` when absent (Python falsy);
`pingRaises` says whether the `exec_run('ping ...')` check raised. -/
structure ContainerObs where
  status : String
  logsTail : String
  ipAddress : String
  gateway : String
  pingRaises : Bool

/-- One probe round's observations: `containers.get` either raises NotFound
(`none`) or returns a container, and `self.check_if_alive()` (the HTTP
liveness probe, an external collaborator) either succeeds or raises. -/
structure WaitObs where
  containerLookup : Option ContainerObs
  checkIfAlive : Except PyExc Unit

/-- Source lines 244-277: one body execution of `_wait_until_alive`,
returning the outcome the tenacity loop sees together with `self.api_url`
after the call.  `docker.errors.NotFound` from the lookup is converted to
`AgentRuntimeNotFoundError` (lines 271-274); an `'exited'` status raises
`AgentRuntimeDisconnectedError` carrying the last 50 log lines (lines
247-251); a missing `IPAddress` triggers the opportunistic ping check whose
failure falls back to the gateway address (lines 253-266, errors swallowed);
the generic handler (lines 275-277) logs and re-raises unchanged. -/
def wait_until_alive_body (container_name api_url : String) (container_port : Nat)
    (obs : WaitObs) : Except PyExc Unit × String :=
  match obs.containerLookup with
  | none =>
    (.error (.agentRuntimeNotFoundError ("Container " ++ container_name ++ " not found.")),
      api_url)
  | some c =>
    if c.status == "exited" then
      (.error (.agentRuntimeDisconnectedError
        ("Container " ++ container_name ++ " has exited. Last logs:\n" ++ c.logsTail)),
        api_url)
    else
      let api_url' :=
        if c.ipAddress == "" then
          if c.pingRaises then
            if c.gateway != "" then
              "http://" ++ c.gateway ++ ":" ++ pyStrOfNat container_port
            else api_url
          else api_url
        else api_url
      (obs.checkIfAlive, api_url')

/-! ### Connection orchestrator (source lines 155-225) -/

/-- Outcome of one `_attach_to_container` call inside `connect()`'s retry
loop: success, one of the two caught exception classes
(`docker.errors.NotFound`, `httpx.ConnectTimeout`, line 164), or an
exception the loop does not catch. -/
inductive AttachOutcome where
  | ok
  | notFound
  | connectTimeout
  | otherException
  deriving DecidableEq, Repr

/-- The configuration `connect()` reads: `self.attach_to_existing`,
and whether `self.runtime_container_image` / `self.base_container_image`
are set (lines 166, 175, 176). -/
structure ConnectCfg where
  attach_to_existing : Bool
  runtime_container_image_set : Bool
  base_container_image_set : Bool

/-- The collaborators `connect()` drives: the k-th attach attempt's outcome,
`build_runtime_image` (line 181), `_init_container` (line 193) and
`_wait_until_alive` (line 211). -/
structure ConnectEnv where
  attachAttempt : Nat → AttachOutcome
  buildImage : Except PyExc Unit
  initContainer : Except PyExc Unit
  waitUntilAlive : Except PyExc Unit

/-- How the `while retry_count < max_retries` loop (lines 160-200) ends:
attach succeeded (`break`, line 163), a container was created (after which
`retry_count >= max_retries` makes the loop condition fail), or an exception
escaped.  Each constructor carries the number of attach attempts made and
the `asyncio.sleep(2 ** retry_count)` backoffs performed (line 200). -/
inductive ConnectLoopOut where
  | attached (attempts : Nat) (backoffs : List Nat)
  | created (attempts : Nat) (backoffs : List Nat) (built : Bool)
  | raised (e : PyExc) (attempts : Nat) (backoffs : List Nat) (built : Bool)
  deriving Repr

/-- Source lines 160-200 with `max_retries = 3` (line 157): one loop
iteration at `retry_count = rc`; `remaining = 3 - rc` is the structural
fuel (the `remaining = 0` branch is unreachable from the entry
`rc = 0, remaining = 3`, since the loop only re-enters with
`retry_count < 3`).  In attach-only mode a caught failure immediately
raises `AgentRuntimeDisconnectedError` (constructed with no message,
line 172); otherwise the third failure builds the image if none is
configured (raising `ValueError` when no base image exists either,
lines 177-179) and runs `_init_container`; earlier failures sleep
`2 ** retry_count` seconds and retry. -/
def connectLoop (cfg : ConnectCfg) (env : ConnectEnv) :
    Nat → Nat → List Nat → ConnectLoopOut
  | _, 0, backoffs => .raised .genericError 3 backoffs false
  | rc, remaining + 1, backoffs =>
    match env.attachAttempt rc with
    | .ok => .attached (rc + 1) backoffs
    | .otherException => .raised .genericError (rc + 1) backoffs false
    | .notFound | .connectTimeout =>
      let retry_count := rc + 1
      if decide (3 ≤ retry_count) || cfg.attach_to_existing then
        if cfg.attach_to_existing then
          .raised (.agentRuntimeDisconnectedError "") retry_count backoffs false
        else if cfg.runtime_container_image_set then
          match env.initContainer with
          | .ok _ => .created retry_count backoffs false
          | .error e => .raised e retry_count backoffs false
        else if cfg.base_container_image_set then
          match env.buildImage with
          | .error e => .raised e retry_count backoffs true
          | .ok _ =>
            match env.initContainer with
            | .ok _ => .created retry_count backoffs true
            | .error e => .raised e retry_count backoffs true
        else
          .raised (.valueError "Neither runtime container image nor base container image is set")
            retry_count backoffs false
      else
        connectLoop cfg env retry_count remaining (backoffs ++ [2 ^ retry_count])

/-- Observable summary of one `connect()` call. -/
structure ConnectTrace where
  attachAttempts : Nat
  backoffs : List Nat
  builtImage : Bool
  createdContainer : Bool
  ranWaitUntilAlive : Bool
  ranSetupInitialEnv : Bool
  result : Except PyExc Unit

/-- Whether an `Except` outcome is a success. -/
def exceptIsOk : Except PyExc Unit → Bool
  | .ok _ => true
  | .error _ => false

/-- Source lines 155-225, `connect()`: the attach/create loop, then
`_wait_until_alive` (line 211), then — only when `attach_to_existing` is
false — `setup_initial_env` (lines 216-217).  Status messages and the
DEBUG_RUNTIME log streamer are advisory side channels and not modelled. -/
def connect (cfg : ConnectCfg) (env : ConnectEnv) : ConnectTrace :=
  match connectLoop cfg env 0 3 [] with
  | .attached n b =>
    { attachAttempts := n, backoffs := b, builtImage := false, createdContainer := false,
      ranWaitUntilAlive := true,
      ranSetupInitialEnv := exceptIsOk env.waitUntilAlive && !cfg.attach_to_existing,
      result := env.waitUntilAlive }
  | .created n b built =>
    { attachAttempts := n, backoffs := b, builtImage := built, createdContainer := true,
      ranWaitUntilAlive := true,
      ranSetupInitialEnv := exceptIsOk env.waitUntilAlive && !cfg.attach_to_existing,
      result := env.waitUntilAlive }
  | .raised e n b built =>
    { attachAttempts := n, backoffs := b, builtImage := built, createdContainer := false,
      ranWaitUntilAlive := false, ranSetupInitialEnv := false, result := .error e }

/-! ### Docker client cache and `delete` (source lines 227-236, 585-597) -/

/-- Process-wide state of `_init_docker_client`'s `lru_cache(maxsize=1)`
memo: the cached client (by id), a supply of fresh ids, and the set of
clients on which `.close()` has been called. -/
structure DockerClientState where
  cachedClient : Option Nat
  nextClientId : Nat
  closedClients : List Nat
  deriving DecidableEq, Repr

/-- Source lines 227-236: `_init_docker_client()` under `lru_cache(maxsize=1)`
— return the memoized client if one exists, otherwise construct one
(`docker.from_env()`) and memoize it.  Construction failure (which would
re-raise) is outside the claims modelled here. -/
def _init_docker_client (s : DockerClientState) : Nat × DockerClientState :=
  match s.cachedClient with
  | some c => (c, s)
  | none =>
    (s.nextClientId,
      { cachedClient := some s.nextClientId, nextClientId := s.nextClientId + 1,
        closedClients := s.closedClients })

/-- Python `docker_client.close()`. -/
def closeDockerClient (c : Nat) (s : DockerClientState) : DockerClientState :=
  { s with closedClients := c :: s.closedClients }

/-- Source lines 585-597, `delete(conversation_id)`: obtain the (cached)
client, look up and force-remove the container — `APIError`/`NotFound`
are swallowed, so the removal outcome never affects client state — and in
the `finally` block close the client. -/
def deleteOp (s : DockerClientState) : DockerClientState :=
  let cs := _init_docker_client s
  closeDockerClient cs.1 cs.2

/-- Whether client `c` has been closed in state `s`. -/
def clientClosed (c : Nat) (s : DockerClientState) : Bool :=
  s.closedClients.contains c

/-! ### Lemmas about the decimal and dict embeddings -/

theorem decAux_ne_nil (fuel n : Nat) (h : n < fuel) : decAux fuel n ≠ [] := by
  cases fuel with
  | zero => omega
  | succ f =>
    unfold decAux
    split <;> simp

theorem decAux_all_digits (fuel n : Nat) (h : n < fuel) :
    (decAux fuel n).all Char.isDigit = true := by
  induction fuel generalizing n with
  | zero => omega
  | succ f ih =>
    unfold decAux
    split
    · rename_i h10
      have : (digitChar n).isDigit = true := by
        interval_cases n <;> decide
      simp [this]
    · rename_i h10
      push_neg at h10
      have hlt : n / 10 < f := by
        have h1 : n / 10 < n := Nat.div_lt_self (by omega) (by omega)
        omega
      have hd : (digitChar (n % 10)).isDigit = true := by
        have hm : n % 10 < 10 := Nat.mod_lt _ (by omega)
        set d := n % 10 with hdd
        interval_cases d <;> decide
      simp only [List.all_append, ih _ hlt, Bool.true_and, List.all_cons,
        List.all_nil, Bool.and_true, hd]

theorem decAux_foldl (fuel n a : Nat) (h : n < fuel) :
    (decAux fuel n).foldl (fun a c => a * 10 + (c.toNat - 48)) a =
      a * 10 ^ (decAux fuel n).length + n := by
  induction fuel generalizing n a with
  | zero => omega
  | succ f ih =>
    unfold decAux
    split
    · rename_i h10
      have : (digitChar n).toNat - 48 = n := by
        interval_cases n <;> decide
      simp [this]
    · rename_i h10
      push_neg at h10
      have hlt : n / 10 < f := by
        have h1 : n / 10 < n := Nat.div_lt_self (by omega) (by omega)
        omega
      have hmod : (digitChar (n % 10)).toNat - 48 = n % 10 := by
        have hm : n % 10 < 10 := Nat.mod_lt _ (by omega)
        set d := n % 10 with hdd
        interval_cases d <;> decide
      rw [List.foldl_append, ih _ a hlt]
      simp only [List.foldl_cons, List.foldl_nil, List.length_append,
        List.length_cons, List.length_nil, hmod]
      rw [pow_succ]
      have := Nat.div_add_mod n 10
      ring_nf
      omega

/-- Round-trip `int(str(n)) == n`: decimal round-trip for the port values the source
writes into and reads back out of the container environment. -/
theorem pyNatOfString_pyStrOfNat (n : Nat) : pyNatOfString (pyStrOfNat n) = some n := by
  have hne := decAux_ne_nil (n + 1) n (by omega)
  have hdig := decAux_all_digits (n + 1) n (by omega)
  have hfold := decAux_foldl (n + 1) n 0 (by omega)
  simp only [pyNatOfString, pyStrOfNat, decValue]
  rw [if_pos ⟨hne, hdig⟩]
  simpa using hfold

theorem pyDictGet_of_hasKey_false (d : List (String × String)) (k : String)
    (h : pyHasKey d k = false) : pyDictGet d k = none := by
  induction d with
  | nil => simp [pyDictGet]
  | cons kv rest ih =>
    simp only [pyHasKey, List.any_cons, Bool.or_eq_false_iff] at h
    simp only [pyDictGet, List.find?, h.1]
    exact ih (by simpa [pyHasKey] using h.2)

theorem pyDictGet_append_of_none (d e : List (String × String)) (k : String)
    (h : pyDictGet d k = none) : pyDictGet (d ++ e) k = pyDictGet e k := by
  induction d with
  | nil => simp
  | cons kv rest ih =>
    simp only [pyDictGet, List.find?, List.cons_append] at h ⊢
    cases hk : (kv.1 == k)
    · simp only [hk] at h ⊢
      exact ih h
    · simp [hk] at h

theorem pyDictGet_append_right_none (d e : List (String × String)) (k : String)
    (he : pyDictGet e k = none) : pyDictGet (d ++ e) k = pyDictGet d k := by
  induction d with
  | nil => simpa using he
  | cons kv rest ih =>
    by_cases h : kv.1 = k
    · simp [pyDictGet, List.find?, h]
    · have hb : (kv.1 == k) = false := beq_eq_false_iff_ne.mpr h
      simpa [pyDictGet, List.find?, hb] using ih

theorem pyDictGet_cons_eq (kv : String × String) (rest : List (String × String))
    (k : String) (h : (kv.1 == k) = true) : pyDictGet (kv :: rest) k = some kv.2 := by
  simp only [pyDictGet, List.find?, h]
  rfl

theorem pyDictGet_cons_ne (kv : String × String) (rest : List (String × String))
    (k : String) (h : (kv.1 == k) = false) : pyDictGet (kv :: rest) k = pyDictGet rest k := by
  simp only [pyDictGet, List.find?, h]

theorem pyDictGet_map_replace_same (d : List (String × String)) (k v : String) :
    pyDictGet (d.map (fun kv => if kv.1 == k then (k, v) else kv)) k =
      if pyHasKey d k then some v else none := by
  induction d with
  | nil => simp [pyDictGet, pyHasKey]
  | cons kv rest ih =>
    have hhk : pyHasKey (kv :: rest) k = ((kv.1 == k) || pyHasKey rest k) := rfl
    by_cases hk : kv.1 = k
    · have hkb : (kv.1 == k) = true := beq_iff_eq.mpr hk
      rw [List.map_cons, if_pos hkb, pyDictGet_cons_eq _ _ _ (by simp), hhk, hkb]
      simp
    · have hkb : (kv.1 == k) = false := beq_eq_false_iff_ne.mpr hk
      rw [List.map_cons, if_neg (by simp [hkb]), pyDictGet_cons_ne _ _ _ hkb, hhk, hkb]
      simpa using ih

theorem pyDictGet_map_replace_other (d : List (String × String)) (k v k' : String)
    (hne : k' ≠ k) :
    pyDictGet (d.map (fun kv => if kv.1 == k then (k, v) else kv)) k' = pyDictGet d k' := by
  induction d with
  | nil => simp [pyDictGet]
  | cons kv rest ih =>
    by_cases hk : kv.1 = k
    · have hkb : (kv.1 == k) = true := beq_iff_eq.mpr hk
      have h1 : ((k, v).1 == k') = false := beq_eq_false_iff_ne.mpr (fun hh => hne hh.symm)
      have h2 : (kv.1 == k') = false := by
        have : kv.1 = k := hk
        rw [this]; exact h1
      rw [List.map_cons, if_pos hkb, pyDictGet_cons_ne _ _ _ h1, pyDictGet_cons_ne _ _ _ h2]
      exact ih
    · have hkb : (kv.1 == k) = false := beq_eq_false_iff_ne.mpr hk
      by_cases hk' : kv.1 = k'
      · have hkb' : (kv.1 == k') = true := beq_iff_eq.mpr hk'
        rw [List.map_cons, if_neg (by simp [hkb]), pyDictGet_cons_eq _ _ _ hkb',
          pyDictGet_cons_eq _ _ _ hkb']
      · have hkb' : (kv.1 == k') = false := beq_eq_false_iff_ne.mpr hk'
        rw [List.map_cons, if_neg (by simp [hkb]), pyDictGet_cons_ne _ _ _ hkb',
          pyDictGet_cons_ne _ _ _ hkb']
        exact ih

theorem pyDictGet_set_same (d : List (String × String)) (k v : String) :
    pyDictGet (pyDictSet d k v) k = some v := by
  by_cases hk : pyHasKey d k = true
  · rw [pyDictSet, if_pos hk, pyDictGet_map_replace_same, if_pos hk]
  · have hkf : pyHasKey d k = false := by simpa using hk
    rw [pyDictSet, if_neg hk,
      pyDictGet_append_of_none _ _ _ (pyDictGet_of_hasKey_false d k hkf)]
    simp [pyDictGet, List.find?]

theorem pyDictGet_set_other (d : List (String × String)) (k v k' : String) (hne : k' ≠ k) :
    pyDictGet (pyDictSet d k v) k' = pyDictGet d k' := by
  by_cases hk : pyHasKey d k = true
  · rw [pyDictSet, if_pos hk]
    exact pyDictGet_map_replace_other d k v k' hne
  · rw [pyDictSet, if_neg hk]
    refine pyDictGet_append_right_none d [(k, v)] k' ?_
    simp [pyDictGet, List.find?, beq_eq_false_iff_ne.mpr (fun hh : k = k' => hne hh.symm)]

theorem optionOrSomeAbsorb (p : Option String) (w : String) (a : Option String) :
    (p.or (some w)).or a = p.or (some w) := by
  cases p <;> rfl

theorem pyLastVal_foldl (k : String) (us : List (String × String)) (a : Option String) :
    us.foldl (fun acc kv => if kv.1 == k then some kv.2 else acc) a =
      (pyLastVal us k).or a := by
  induction us generalizing a with
  | nil => simp [pyLastVal]
  | cons kv rest ih =>
    simp only [pyLastVal, List.foldl_cons] at ih ⊢
    by_cases h : kv.1 = k
    · have hb : (kv.1 == k) = true := beq_iff_eq.mpr h
      rw [if_pos hb, if_pos hb, ih, ih]
      exact (optionOrSomeAbsorb _ _ _).symm
    · have hcond : ¬((kv.1 == k) = true) := by
        simp [beq_eq_false_iff_ne.mpr h]
      rw [if_neg hcond, if_neg hcond]
      exact ih a

theorem pyDictUpdate_get (us d : List (String × String)) (k : String) :
    pyDictGet (pyDictUpdate d us) k = (pyLastVal us k).or (pyDictGet d k) := by
  induction us generalizing d with
  | nil => simp [pyDictUpdate, pyLastVal]
  | cons kv rest ih =>
    simp only [pyDictUpdate, List.foldl_cons] at *
    rw [ih]
    by_cases h : kv.1 = k
    · have hb : (kv.1 == k) = true := beq_iff_eq.mpr h
      have hset : pyDictGet (pyDictSet d kv.1 kv.2) k = some kv.2 := by
        rw [h]; exact pyDictGet_set_same d k kv.2
      rw [hset]
      simp only [pyLastVal, List.foldl_cons]
      rw [if_pos hb, pyLastVal_foldl k rest (some kv.2), Option.or_assoc]
      simp [pyLastVal]
    · have hb : (kv.1 == k) = false := beq_eq_false_iff_ne.mpr h
      have hset : pyDictGet (pyDictSet d kv.1 kv.2) k = pyDictGet d k :=
        pyDictGet_set_other d kv.1 kv.2 k (fun hh => h hh.symm)
      rw [hset]
      simp only [pyLastVal, List.foldl_cons, hb]
      rfl

theorem mem_pyDictSet (d : List (String × String)) (k v : String) (kv : String × String)
    (h : kv ∈ pyDictSet d k v) : kv ∈ d ∨ kv = (k, v) := by
  unfold pyDictSet at h
  split at h
  · rcases List.mem_map.mp h with ⟨a, ha, hfa⟩
    by_cases hak : a.1 = k
    · right
      rw [← hfa, if_pos (beq_iff_eq.mpr hak)]
    · left
      rwa [← hfa, if_neg (by simp [beq_eq_false_iff_ne.mpr hak])]
  · rcases List.mem_append.mp h with h' | h'
    · exact Or.inl h'
    · right; simpa using h'

theorem mem_pyDictUpdate (us d : List (String × String)) (kv : String × String)
    (h : kv ∈ pyDictUpdate d us) : kv ∈ d ∨ ∃ w, (kv.1, w) ∈ us := by
  induction us generalizing d with
  | nil => exact Or.inl h
  | cons u rest ih =>
    simp only [pyDictUpdate, List.foldl_cons] at h
    rcases ih (pyDictSet d u.1 u.2) h with h' | ⟨w, hw⟩
    · rcases mem_pyDictSet d u.1 u.2 kv h' with h'' | h''
      · exact Or.inl h''
      · right
        refine ⟨u.2, ?_⟩
        rw [h'']
        simp
    · exact Or.inr ⟨w, List.mem_cons_of_mem _ hw⟩

theorem pyDictSet_mem_preserved (d : List (String × String)) (k v k0 v0 : String)
    (h : (k, v) ∈ d) (hne : k0 ≠ k) : (k, v) ∈ pyDictSet d k0 v0 := by
  unfold pyDictSet
  split
  · have := List.mem_map_of_mem (fun kv => if kv.1 == k0 then (k0, v0) else kv) h
    simpa [beq_eq_false_iff_ne.mpr (fun hh : k = k0 => hne hh.symm)] using this
  · exact List.mem_append_left _ h

theorem pyDictUpdate_mem_preserved (us d : List (String × String)) (k v : String)
    (h : (k, v) ∈ d) (hus : ∀ u ∈ us, u.1 ≠ k) : (k, v) ∈ pyDictUpdate d us := by
  induction us generalizing d with
  | nil => exact h
  | cons u rest ih =>
    simp only [pyDictUpdate, List.foldl_cons]
    refine ih (pyDictSet d u.1 u.2) ?_ (fun x hx => hus x (List.mem_cons_of_mem _ hx))
    exact pyDictSet_mem_preserved d k v u.1 u.2 h (hus u (List.mem_cons_self _ _))

/-! ### Helper lemmas about the computed environment -/

theorem computedEnvironment_get_nondebug (cport vport : Nat) (platform : Option String)
    (dbg : Bool) (k : String) (h1 : k ≠ "DOCKER_BUILDKIT_PROGRESS") (h2 : k ≠ "DEBUG") :
    pyDictGet (computedEnvironment cport vport platform dbg) k =
      pyDictGet (computedEnvBase cport vport platform) k := by
  unfold computedEnvironment
  cases dbg
  · rfl
  · show pyDictGet (pyDictSet (pyDictSet (computedEnvBase cport vport platform)
      "DEBUG" "true") "DOCKER_BUILDKIT_PROGRESS" "plain") k = _
    rw [pyDictGet_set_other _ _ _ _ h1, pyDictGet_set_other _ _ _ _ h2]

/-! ### Claim theorems -/

/-- C1: the claim says that when host-network mode is not configured and
engine-variant detection fails, `_init_container` still selects bridge mode,
registers the `'host.docker.internal' -> 'host-gateway'` extra-hosts entry,
and never raises.  The code does select bridge mode, but on that path the
local `extra_hosts` is never assigned (only the non-desktop success branch,
line 302, assigns it), so evaluating `extra_hosts=extra_hosts` at the
creation call (line 431) raises `UnboundLocalError`: no alias is registered
and `_init_container` raises. -/
theorem init_container_detection_failure_unbound_extra_hosts :
    resolveNetworkMode false .versionQueryRaises = (some "bridge", none) ∧
    containersRunNetworkArgs false .versionQueryRaises =
      .error (.unboundLocalError "extra_hosts") :=
  ⟨rfl, rfl⟩

/-- C3: the claim says a not-found observed during a liveness probe is
retryable and retried.  In the code, `_wait_until_alive` converts
`docker.errors.NotFound` into `AgentRuntimeNotFoundError` (lines 271-274),
and the retry predicate accepts raw `docker.errors.NotFound` but not
`AgentRuntimeNotFoundError` — so the conversion makes the loop abort
immediately instead of retrying, defeating the predicate's own
"Added NotFound for container startup race conditions" entry (line 55). -/
theorem wait_not_found_converted_and_not_retried :
    wait_until_alive_body "openhands-runtime-abc" "http://127.0.0.1:30000" 30000
        { containerLookup := none, checkIfAlive := .ok () } =
      (.error (.agentRuntimeNotFoundError "Container openhands-runtime-abc not found."),
        "http://127.0.0.1:30000") ∧
    _is_retryable_wait_until_alive_error
      (.agentRuntimeNotFoundError "Container openhands-runtime-abc not found.") = false ∧
    _is_retryable_wait_until_alive_error .dockerNotFound = true :=
  ⟨rfl, rfl, rfl⟩

/-- C4 counterexample: the claim says a second name conflict on the single
retry "is not specially handled and propagates".  In the code a second 409
is handled exactly like the first — another removal and another recursive
retry (`return self._init_container()`, line 456): a trace with two
consecutive 409s then a success ends in success after 3 creation attempts
and 2 removals, with nothing propagated. -/
theorem init_second_conflict_recovered_not_propagated :
    initCreateLoop [.apiError "409 Client Error: Conflict",
      .apiError "409 Client Error: Conflict", .ok] = .success 3 2 := by
  rfl

/-- C4 (amended): a 409 name conflict triggers removal of the conflicting
container and a recursive retry of the full provisioning sequence with no
depth bound: any run of `n` consecutive 409s followed by a success ends in
success after `n + 1` creation attempts and `n` removals — a conflict on a
retry is handled again, never propagated. -/
theorem init_conflict_unbounded_remove_retry (n : Nat) :
    initCreateLoop (List.replicate n (.apiError "409 Client Error: Conflict") ++ [.ok]) =
      .success (n + 1) n := by
  induction n with
  | zero => rfl
  | succ m ih =>
    have h409 : pyInStr "409" "409 Client Error: Conflict" = true := by decide
    simp only [List.replicate_succ, List.cons_append, initCreateLoop]
    rw [if_pos h409]
    have ih' : initCreateLoop
        ((List.replicate m (CreateOutcome.apiError "409 Client Error: Conflict")).append
          [CreateOutcome.ok]) = .success (m + 1) m := ih
    rw [ih']

/-- C7 counterexample: the claim says a caller-supplied startup entry cannot
replace reserved computed entries such as the control port.  But
`environment.update(runtime_startup_env_vars)` (line 387) runs last and
overrides every key: a caller-supplied `'port'` entry replaces the computed
control-port value. -/
theorem environment_port_overridden_by_startup_env :
    pyDictGet (buildEnvironment 30000 40000 none false [("port", "9999")]) "port" =
      some "9999" ∧
    pyStrOfNat 30000 ≠ "9999" := by
  exact ⟨rfl, by decide⟩

/-- C7 (amended): the creation environment always carries the control-port
(`'port'`), editor-port (`'VSCODE_PORT'`), unbuffered-I/O
(`'PYTHONUNBUFFERED'`) and platform (`'DOCKER_DEFAULT_PLATFORM'`) entries,
and caller-supplied startup entries override the computed defaults for
*every* key, reserved ones included: each key's final value is the last
caller-supplied value when one exists, the computed default otherwise. -/
theorem environment_markers_and_override (cport vport : Nat) (platform : Option String)
    (dbg : Bool) (startup : List (String × String)) :
    pyDictGet (buildEnvironment cport vport platform dbg startup) "port" =
      (pyLastVal startup "port").or (some (pyStrOfNat cport)) ∧
    pyDictGet (buildEnvironment cport vport platform dbg startup) "VSCODE_PORT" =
      (pyLastVal startup "VSCODE_PORT").or (some (pyStrOfNat vport)) ∧
    pyDictGet (buildEnvironment cport vport platform dbg startup) "PYTHONUNBUFFERED" =
      (pyLastVal startup "PYTHONUNBUFFERED").or (some "1") ∧
    pyDictGet (buildEnvironment cport vport platform dbg startup) "DOCKER_DEFAULT_PLATFORM" =
      (pyLastVal startup "DOCKER_DEFAULT_PLATFORM").or (some (platform.getD "linux/amd64")) := by
  refine ⟨?_, ?_, ?_, ?_⟩ <;>
    rw [buildEnvironment, pyDictUpdate_get,
      computedEnvironment_get_nondebug _ _ _ _ _ (by decide) (by decide)] <;> rfl

/-- C10: `delete()` closes the process-wide docker client in its `finally`
step, and because `_init_docker_client` memoizes a single client
(`lru_cache(maxsize=1)`), the memo still holds that client afterwards: every
later `_init_docker_client` call — whether from a new `DockerRuntime`
instance or another `delete()` — returns the already-closed client instead
of a fresh connection. -/
theorem delete_closes_cached_client (s : DockerClientState) :
    (deleteOp s).cachedClient = some (_init_docker_client s).1 ∧
    clientClosed (_init_docker_client s).1 (deleteOp s) = true ∧
    (_init_docker_client (deleteOp s)).1 = (_init_docker_client s).1 ∧
    clientClosed (_init_docker_client (deleteOp s)).1 (deleteOp s) = true ∧
    (deleteOp (deleteOp s)).cachedClient = some (_init_docker_client s).1 := by
  obtain ⟨cc, nid, cls⟩ := s
  cases cc <;>
    simp [deleteOp, _init_docker_client, closeDockerClient, clientClosed]

/-- C2: in attach-only mode (`attach_to_existing = True`) against a
container that does not exist (every attach attempt raises
`docker.errors.NotFound`), `connect()` terminates with
`AgentRuntimeDisconnectedError` within the 3-attempt budget — in fact on the
very first failure, since the loop's condition
`retry_count >= max_retries or self.attach_to_existing` (line 166) is already
true — and it performs no image build and no container creation. -/
theorem connect_attach_only_missing_container (cfg : ConnectCfg) (env : ConnectEnv)
    (hao : cfg.attach_to_existing = true)
    (habs : ∀ k, env.attachAttempt k = .notFound) :
    (connect cfg env).result = .error (.agentRuntimeDisconnectedError "") ∧
    (connect cfg env).attachAttempts = 1 ∧
    (connect cfg env).attachAttempts ≤ 3 ∧
    (connect cfg env).createdContainer = false ∧
    (connect cfg env).builtImage = false ∧
    (connect cfg env).backoffs = [] := by
  have hloop : connectLoop cfg env 0 3 [] =
      .raised (.agentRuntimeDisconnectedError "") 1 [] false := by
    unfold connectLoop
    rw [habs 0]
    simp [hao]
  unfold connect
  rw [hloop]
  refine ⟨rfl, rfl, ?_, rfl, rfl, rfl⟩
  show (1 : Nat) ≤ 3
  decide

/-- Witness for C2 at a concrete configuration and engine. -/
theorem connect_attach_only_missing_container_witness :
    (⟨true, true, true⟩ : ConnectCfg).attach_to_existing = true ∧
    (connect ⟨true, true, true⟩ ⟨fun _ => .notFound, .ok (), .ok (), .ok ()⟩).result =
      .error (.agentRuntimeDisconnectedError "") ∧
    (connect ⟨true, true, true⟩ ⟨fun _ => .notFound, .ok (), .ok (), .ok ()⟩).createdContainer
      = false :=
  ⟨rfl,
    (connect_attach_only_missing_container _ _ rfl (fun _ => rfl)).1,
    (connect_attach_only_missing_container _ _ rfl (fun _ => rfl)).2.2.2.1⟩

/-- C8 counterexample: the claim says initial-environment setup runs only
when the container was freshly created by that `connect()` call.  With
`attach_to_existing = False` and a container that already exists, the first
attach succeeds — nothing is built or created — yet `setup_initial_env`
still runs, because the guard (line 216) tests the `attach_to_existing`
flag, not whether creation happened. -/
theorem setup_env_runs_without_creation :
    (connect ⟨false, true, true⟩ ⟨fun _ => .ok, .ok (), .ok (), .ok ()⟩).createdContainer
      = false ∧
    (connect ⟨false, true, true⟩ ⟨fun _ => .ok, .ok (), .ok (), .ok ()⟩).ranSetupInitialEnv
      = true :=
  ⟨rfl, rfl⟩

/-- C8 (amended): within `connect()`, one-time initial-environment setup
runs exactly when the liveness wait ran and succeeded and the caller did not
request attach-only semantics — gated by the `attach_to_existing` flag, not
by whether this call actually created the container. -/
theorem setup_env_gating (cfg : ConnectCfg) (env : ConnectEnv) :
    (connect cfg env).ranSetupInitialEnv =
      ((connect cfg env).ranWaitUntilAlive && exceptIsOk env.waitUntilAlive &&
        !cfg.attach_to_existing) := by
  unfold connect
  cases h : connectLoop cfg env 0 3 [] <;> simp

/-- C9: if a liveness probe observes the container's status as `'exited'`,
`_wait_until_alive` raises `AgentRuntimeDisconnectedError` whose message
carries the container's last 50 log lines (lines 247-251), and the retry
predicate rejects that error, so the backoff loop does not retry it. -/
theorem wait_exited_fatal_not_retryable (container_name api_url : String)
    (container_port : Nat) (obs : WaitObs) (c : ContainerObs)
    (hc : obs.containerLookup = some c) (hst : c.status = "exited") :
    (wait_until_alive_body container_name api_url container_port obs).1 =
      .error (.agentRuntimeDisconnectedError
        ("Container " ++ container_name ++ " has exited. Last logs:\n" ++ c.logsTail)) ∧
    _is_retryable_wait_until_alive_error
      (.agentRuntimeDisconnectedError
        ("Container " ++ container_name ++ " has exited. Last logs:\n" ++ c.logsTail))
      = false := by
  constructor
  · unfold wait_until_alive_body
    rw [hc]
    simp [hst]
  · rfl

/-- Witness for C9 at a concrete observation. -/
theorem wait_exited_fatal_not_retryable_witness :
    ({ containerLookup := some ⟨"exited", "boom", "", "", false⟩, checkIfAlive := .ok () }
        : WaitObs).containerLookup = some ⟨"exited", "boom", "", "", false⟩ ∧
    (wait_until_alive_body "openhands-runtime-x" "u" 30000
        { containerLookup := some ⟨"exited", "boom", "", "", false⟩,
          checkIfAlive := .ok () }).1 =
      .error (.agentRuntimeDisconnectedError
        ("Container " ++ "openhands-runtime-x" ++ " has exited. Last logs:\n" ++ "boom")) :=
  ⟨rfl, (wait_exited_fatal_not_retryable "openhands-runtime-x" "u" 30000 _ _ rfl rfl).1⟩

theorem findPortLoop_range (draw : Nat → Nat) (inUse : Nat → Bool) (lo hi : Nat)
    (hd : ∀ k, lo ≤ draw k ∧ draw k ≤ hi) :
    ∀ (n k p : Nat), lo ≤ p → p ≤ hi →
      lo ≤ findPortLoop draw inUse k n p ∧ findPortLoop draw inUse k n p ≤ hi := by
  intro n
  induction n with
  | zero => intro k p h1 h2; exact ⟨h1, h2⟩
  | succ m ih =>
    intro k p h1 h2
    unfold findPortLoop
    by_cases h : inUse (draw k) = false
    · simp only [h, if_pos rfl]
      exact hd k
    · rw [if_neg h]
      exact ih (k + 1) (draw k) (hd k).1 (hd k).2

theorem findPortLoop_exhaust (draw : Nat → Nat) (inUse : Nat → Bool) :
    ∀ (n k p : Nat), inUse (findPortLoop draw inUse k n p) = true →
      (∀ i < n, inUse (draw (k + i)) = true) ∧
      findPortLoop draw inUse k n p = (if n = 0 then p else draw (k + n - 1)) := by
  intro n
  induction n with
  | zero =>
    intro k p h
    refine ⟨fun i hi => absurd hi (by omega), ?_⟩
    rw [if_pos rfl]
    rfl
  | succ m ih =>
    intro k p h
    rw [findPortLoop] at h ⊢
    by_cases hu : inUse (draw k) = false
    · rw [if_pos hu] at h
      rw [hu] at h
      exact absurd h (by simp)
    · rw [if_neg hu] at h ⊢
      have hu' : inUse (draw k) = true := by
        cases hh : inUse (draw k)
        · exact absurd hh hu
        · rfl
      obtain ⟨hall, heq⟩ := ih (k + 1) (draw k) h
      constructor
      · intro i hi
        cases i with
        | zero => simpa using hu'
        | succ j =>
          have := hall j (by omega)
          have harg : k + 1 + j = k + (j + 1) := by omega
          rwa [harg] at this
      · rw [heq]
        by_cases hm : m = 0
        · subst hm
          simp
        · rw [if_neg hm, if_neg (by omega : ¬ m + 1 = 0)]
          have : k + 1 + m - 1 = k + (m + 1) - 1 := by omega
          rw [this]

/-- C6: for every inclusive port range and attempt budget,
`_find_available_port` returns a port within the range (the OS oracle
`find_available_tcp_port` draws candidates within the range, and the
`port_range[1]` initializer lies in it); and whenever the returned port is
still published by a running container, every one of the `max_attempts`
draws was found in use — the budget was exhausted — and the returned port is
the last candidate drawn (the `port_range[1]` initializer when the budget
was zero and nothing was drawn). -/
theorem find_available_port_in_range_and_exhaustion
    (draw : Nat → Nat) (inUse : Nat → Bool) (lo hi N : Nat)
    (hr : lo ≤ hi) (hd : ∀ k, lo ≤ draw k ∧ draw k ≤ hi) :
    (lo ≤ _find_available_port draw inUse (lo, hi) N ∧
      _find_available_port draw inUse (lo, hi) N ≤ hi) ∧
    (inUse (_find_available_port draw inUse (lo, hi) N) = true →
      (∀ i < N, inUse (draw i) = true) ∧
      _find_available_port draw inUse (lo, hi) N =
        (if N = 0 then hi else draw (N - 1))) := by
  constructor
  · exact findPortLoop_range draw inUse lo hi hd N 0 hi hr (le_refl hi)
  · intro h
    have := findPortLoop_exhaust draw inUse N 0 hi h
    simpa using this

/-- Witness for C6 at a concrete oracle, engine view and budget. -/
theorem find_available_port_in_range_and_exhaustion_witness :
    (30000 : Nat) ≤ 39999 ∧
    30000 ≤ _find_available_port (fun _ => 30005) (fun _ => false) (30000, 39999) 5 ∧
    _find_available_port (fun _ => 30005) (fun _ => false) (30000, 39999) 5 ≤ 39999 := by
  have h := find_available_port_in_range_and_exhaustion (fun _ => 30005) (fun _ => false)
    30000 39999 5 (by decide)
    (by
      intro k
      constructor
      · show (30000 : Nat) ≤ 30005
        decide
      · show (30005 : Nat) ≤ 39999
        decide)
  exact ⟨by decide, h.1.1, h.1.2⟩

theorem attachScan_foldl (cport vport : Nat) :
    ∀ (l : List (String × String)) (st : Int × Int),
    (∀ kv ∈ l,
      (envEntryTriggers kv.1 "port" = true →
        envEntryPortValue kv.1 kv.2 "port" = some cport) ∧
      (envEntryTriggers kv.1 "VSCODE_PORT" = true →
        envEntryPortValue kv.1 kv.2 "VSCODE_PORT" = some vport) ∧
      ¬(envEntryTriggers kv.1 "port" = true ∧
        envEntryTriggers kv.1 "VSCODE_PORT" = true)) →
    l.foldl attachScanStep (some st) =
      some ((if l.any (fun kv => envEntryTriggers kv.1 "port") then (cport : Int) else st.1),
            (if l.any (fun kv => envEntryTriggers kv.1 "VSCODE_PORT") then (vport : Int)
              else st.2)) := by
  intro l
  induction l with
  | nil =>
    intro st _
    simp
  | cons kv rest ih =>
    intro st h
    have hkv := h kv (List.mem_cons_self _ _)
    have hrest : ∀ u ∈ rest,
        (envEntryTriggers u.1 "port" = true →
          envEntryPortValue u.1 u.2 "port" = some cport) ∧
        (envEntryTriggers u.1 "VSCODE_PORT" = true →
          envEntryPortValue u.1 u.2 "VSCODE_PORT" = some vport) ∧
        ¬(envEntryTriggers u.1 "port" = true ∧
          envEntryTriggers u.1 "VSCODE_PORT" = true) :=
      fun u hu => h u (List.mem_cons_of_mem _ hu)
    simp only [List.foldl_cons, List.any_cons]
    by_cases t1 : envEntryTriggers kv.1 "port" = true
    · have hv2 : envEntryTriggers kv.1 "VSCODE_PORT" = false := by
        cases ht : envEntryTriggers kv.1 "VSCODE_PORT"
        · rfl
        · exact absurd ⟨t1, ht⟩ hkv.2.2
      have hstep : attachScanStep (some st) kv = some ((cport : Int), st.2) := by
        simp only [attachScanStep, Option.bind, t1, if_pos rfl, hkv.1 t1]
        rfl
      rw [hstep, ih ((cport : Int), st.2) hrest]
      have e1 : (envEntryTriggers kv.1 "port" ||
          rest.any fun u => envEntryTriggers u.1 "port") = true := by
        rw [t1, Bool.true_or]
      have e2 : (envEntryTriggers kv.1 "VSCODE_PORT" ||
          rest.any fun u => envEntryTriggers u.1 "VSCODE_PORT") =
          (rest.any fun u => envEntryTriggers u.1 "VSCODE_PORT") := by
        rw [hv2, Bool.false_or]
      simp only [e1, e2, if_pos rfl, ite_self, if_true, eq_self_iff_true]
    · have t1f : envEntryTriggers kv.1 "port" = false := by
        cases ht : envEntryTriggers kv.1 "port"
        · rfl
        · exact absurd ht t1
      by_cases t2 : envEntryTriggers kv.1 "VSCODE_PORT" = true
      · have hstep : attachScanStep (some st) kv = some (st.1, (vport : Int)) := by
          simp only [attachScanStep, Option.bind, t1f, t2, hkv.2.1 t2]
          rfl
        rw [hstep, ih (st.1, (vport : Int)) hrest]
        have e1 : (envEntryTriggers kv.1 "port" ||
            rest.any fun u => envEntryTriggers u.1 "port") =
            (rest.any fun u => envEntryTriggers u.1 "port") := by
          rw [t1f, Bool.false_or]
        have e2 : (envEntryTriggers kv.1 "VSCODE_PORT" ||
            rest.any fun u => envEntryTriggers u.1 "VSCODE_PORT") = true := by
          rw [t2, Bool.true_or]
        simp only [e1, e2, if_pos rfl, ite_self, if_true, eq_self_iff_true]
      · have t2f : envEntryTriggers kv.1 "VSCODE_PORT" = false := by
          cases ht : envEntryTriggers kv.1 "VSCODE_PORT"
          · rfl
          · exact absurd ht t2
        have hstep : attachScanStep (some st) kv = some st := by
          simp only [attachScanStep, Option.bind, t1f, t2f]
          rfl
        rw [hstep, ih st hrest]
        have e1 : (envEntryTriggers kv.1 "port" ||
            rest.any fun u => envEntryTriggers u.1 "port") =
            (rest.any fun u => envEntryTriggers u.1 "port") := by
          rw [t1f, Bool.false_or]
        have e2 : (envEntryTriggers kv.1 "VSCODE_PORT" ||
            rest.any fun u => envEntryTriggers u.1 "VSCODE_PORT") =
            (rest.any fun u => envEntryTriggers u.1 "VSCODE_PORT") := by
          rw [t2f, Bool.false_or]
        simp only [e1, e2]

theorem envEntryTriggers_false_ne (k p : String) (h : envEntryTriggers k p = false) :
    k ≠ p := by
  intro heq
  subst heq
  simp [envEntryTriggers] at h

theorem mem_computedEnvironment (cport vport : Nat) (platform : Option String)
    (dbg : Bool) (kv : String × String)
    (h : kv ∈ computedEnvironment cport vport platform dbg) :
    kv ∈ computedEnvBase cport vport platform ∨
      kv = ("DEBUG", "true") ∨ kv = ("DOCKER_BUILDKIT_PROGRESS", "plain") := by
  unfold computedEnvironment at h
  cases dbg
  · exact Or.inl h
  · have h' : kv ∈ pyDictSet (pyDictSet (computedEnvBase cport vport platform)
        "DEBUG" "true") "DOCKER_BUILDKIT_PROGRESS" "plain" := h
    rcases mem_pyDictSet _ _ _ _ h' with h'' | h''
    · rcases mem_pyDictSet _ _ _ _ h'' with h3 | h3
      · exact Or.inl h3
      · exact Or.inr (Or.inl h3)
    · exact Or.inr (Or.inr h'')

theorem buildEnvironment_entry_prop (cport vport : Nat) (platform : Option String)
    (dbg : Bool) (startup : List (String × String))
    (hstart : ∀ u ∈ startup, envEntryTriggers u.1 "port" = false ∧
      envEntryTriggers u.1 "VSCODE_PORT" = false) :
    ∀ kv ∈ buildEnvironment cport vport platform dbg startup,
      (envEntryTriggers kv.1 "port" = true →
        envEntryPortValue kv.1 kv.2 "port" = some cport) ∧
      (envEntryTriggers kv.1 "VSCODE_PORT" = true →
        envEntryPortValue kv.1 kv.2 "VSCODE_PORT" = some vport) ∧
      ¬(envEntryTriggers kv.1 "port" = true ∧
        envEntryTriggers kv.1 "VSCODE_PORT" = true) := by
  intro kv hkv
  rcases mem_pyDictUpdate _ _ _ hkv with hin | ⟨w, hw⟩
  · rcases mem_computedEnvironment _ _ _ _ _ hin with hbase | rfl | rfl
    · have hbase' : kv = ("port", pyStrOfNat cport) ∨ kv = ("PYTHONUNBUFFERED", "1") ∨
          kv = ("VSCODE_PORT", pyStrOfNat vport) ∨ kv = ("PIP_BREAK_SYSTEM_PACKAGES", "1") ∨
          kv = ("HOST_HOSTNAME", "host.docker.internal") ∨
          kv = ("DOCKER_DEFAULT_PLATFORM", platform.getD "linux/amd64") ∨
          kv = ("DOCKER_BUILDKIT", "1") ∨ kv = ("DOCKER_DNS", "8.8.8.8") := by
        simpa [computedEnvBase] using hbase
      rcases hbase' with rfl | rfl | rfl | rfl | rfl | rfl | rfl | rfl
      · refine ⟨fun _ => ?_,
          fun ht => absurd ht (show ¬envEntryTriggers "port" "VSCODE_PORT" = true by decide),
          fun hb => absurd hb.2
            (show ¬envEntryTriggers "port" "VSCODE_PORT" = true by decide)⟩
        show envEntryPortValue "port" (pyStrOfNat cport) "port" = some cport
        simp [envEntryPortValue, pyNatOfString_pyStrOfNat]
      · exact ⟨fun ht => absurd ht (by decide), fun ht => absurd ht (by decide),
          fun hb => absurd hb.1 (by decide)⟩
      · refine ⟨fun ht => absurd ht (show ¬envEntryTriggers "VSCODE_PORT" "port" = true by decide),
          fun _ => ?_,
          fun hb => absurd hb.1
            (show ¬envEntryTriggers "VSCODE_PORT" "port" = true by decide)⟩
        show envEntryPortValue "VSCODE_PORT" (pyStrOfNat vport) "VSCODE_PORT" = some vport
        simp [envEntryPortValue, pyNatOfString_pyStrOfNat]
      · exact ⟨fun ht => absurd ht (by decide), fun ht => absurd ht (by decide),
          fun hb => absurd hb.1 (by decide)⟩
      · exact ⟨fun ht => absurd ht (by decide), fun ht => absurd ht (by decide),
          fun hb => absurd hb.1 (by decide)⟩
      · exact ⟨fun ht => absurd ht
            (show ¬envEntryTriggers "DOCKER_DEFAULT_PLATFORM" "port" = true by decide),
          fun ht => absurd ht
            (show ¬envEntryTriggers "DOCKER_DEFAULT_PLATFORM" "VSCODE_PORT" = true by decide),
          fun hb => absurd hb.1
            (show ¬envEntryTriggers "DOCKER_DEFAULT_PLATFORM" "port" = true by decide)⟩
      · exact ⟨fun ht => absurd ht (by decide), fun ht => absurd ht (by decide),
          fun hb => absurd hb.1 (by decide)⟩
      · exact ⟨fun ht => absurd ht (by decide), fun ht => absurd ht (by decide),
          fun hb => absurd hb.1 (by decide)⟩
    · exact ⟨fun ht => absurd ht (by decide), fun ht => absurd ht (by decide),
        fun hb => absurd hb.1 (by decide)⟩
    · exact ⟨fun ht => absurd ht (by decide), fun ht => absurd ht (by decide),
        fun hb => absurd hb.1 (by decide)⟩
  · have hu := hstart (kv.1, w) hw
    refine ⟨fun ht => ?_, fun ht => ?_, fun hb => ?_⟩
    · rw [hu.1] at ht
      exact absurd ht (by simp)
    · rw [hu.2] at ht
      exact absurd ht (by simp)
    · rw [hu.1] at hb
      exact absurd hb.1 (by simp)

theorem buildEnvironment_mem_port (cport vport : Nat) (platform : Option String)
    (dbg : Bool) (startup : List (String × String))
    (hstart : ∀ u ∈ startup, envEntryTriggers u.1 "port" = false ∧
      envEntryTriggers u.1 "VSCODE_PORT" = false) :
    ("port", pyStrOfNat cport) ∈ buildEnvironment cport vport platform dbg startup := by
  refine pyDictUpdate_mem_preserved startup _ _ _ ?_
    (fun u hu => envEntryTriggers_false_ne u.1 "port" (hstart u hu).1)
  unfold computedEnvironment
  cases dbg
  · simp [computedEnvBase]
  · show ("port", pyStrOfNat cport) ∈
        pyDictSet (pyDictSet (computedEnvBase cport vport platform) "DEBUG" "true")
          "DOCKER_BUILDKIT_PROGRESS" "plain"
    refine pyDictSet_mem_preserved _ _ _ _ _ ?_ ?_
    · refine pyDictSet_mem_preserved _ _ _ _ _ ?_ ?_
      · simp [computedEnvBase]
      · decide
    · decide

theorem buildEnvironment_mem_vscode (cport vport : Nat) (platform : Option String)
    (dbg : Bool) (startup : List (String × String))
    (hstart : ∀ u ∈ startup, envEntryTriggers u.1 "port" = false ∧
      envEntryTriggers u.1 "VSCODE_PORT" = false) :
    ("VSCODE_PORT", pyStrOfNat vport) ∈ buildEnvironment cport vport platform dbg startup := by
  refine pyDictUpdate_mem_preserved startup _ _ _ ?_
    (fun u hu => envEntryTriggers_false_ne u.1 "VSCODE_PORT" (hstart u hu).2)
  unfold computedEnvironment
  cases dbg
  · simp [computedEnvBase]
  · show ("VSCODE_PORT", pyStrOfNat vport) ∈
        pyDictSet (pyDictSet (computedEnvBase cport vport platform) "DEBUG" "true")
          "DOCKER_BUILDKIT_PROGRESS" "plain"
    refine pyDictSet_mem_preserved _ _ _ _ _ ?_ ?_
    · refine pyDictSet_mem_preserved _ _ _ _ _ ?_ ?_
      · simp [computedEnvBase]
      · decide
    · decide

/-- C5 (amended): for every container creation whose ports are drawn from
the source's four disjoint ranges and published via the bridge-mode port
mapping, and whose caller-supplied startup environment does not carry
entries that the attach scan would read as the reserved `'port='` /
`'VSCODE_PORT='` markers, `_attach_to_container` reconstructs the identical
port assignment — same control port (as both host and container port), same
editor port, and the application ports in their original order — without
allocating any new port. -/
theorem attach_reconstructs_creation_ports
    (cport vport a1 a2 : Nat) (platform : Option String) (dbg vscode_enabled : Bool)
    (startup : List (String × String))
    (h1 : EXECUTION_SERVER_PORT_RANGE.1 ≤ cport ∧ cport ≤ EXECUTION_SERVER_PORT_RANGE.2)
    (h2 : VSCODE_PORT_RANGE.1 ≤ vport ∧ vport ≤ VSCODE_PORT_RANGE.2)
    (h3 : APP_PORT_RANGE_1.1 ≤ a1 ∧ a1 ≤ APP_PORT_RANGE_1.2)
    (h4 : APP_PORT_RANGE_2.1 ≤ a2 ∧ a2 ≤ APP_PORT_RANGE_2.2)
    (hstart : ∀ u ∈ startup, envEntryTriggers u.1 "port" = false ∧
      envEntryTriggers u.1 "VSCODE_PORT" = false) :
    _attach_to_container (buildEnvironment cport vport platform dbg startup)
        (portMappingKeys cport vport [a1, a2] vscode_enabled) =
      some { _host_port := (cport : Int), _container_port := (cport : Int),
             _vscode_port := (vport : Int), _app_ports := [(a1 : Int), (a2 : Int)] } := by
  have h1' : 30000 ≤ cport ∧ cport ≤ 39999 := h1
  have h2' : 40000 ≤ vport ∧ vport ≤ 49999 := h2
  have h3' : 50000 ≤ a1 ∧ a1 ≤ 54999 := h3
  have h4' : 55000 ≤ a2 ∧ a2 ≤ 59999 := h4
  have hprop := buildEnvironment_entry_prop cport vport platform dbg startup hstart
  have hscan := attachScan_foldl cport vport
    (buildEnvironment cport vport platform dbg startup) (-1, -1) hprop
  have hany1 : ((buildEnvironment cport vport platform dbg startup).any
      fun kv => envEntryTriggers kv.1 "port") = true :=
    List.any_eq_true.mpr ⟨("port", pyStrOfNat cport),
      buildEnvironment_mem_port cport vport platform dbg startup hstart,
      show envEntryTriggers "port" "port" = true by decide⟩
  have hany2 : ((buildEnvironment cport vport platform dbg startup).any
      fun kv => envEntryTriggers kv.1 "VSCODE_PORT") = true :=
    List.any_eq_true.mpr ⟨("VSCODE_PORT", pyStrOfNat vport),
      buildEnvironment_mem_vscode cport vport platform dbg startup hstart,
      show envEntryTriggers "VSCODE_PORT" "VSCODE_PORT" = true by decide⟩
  have ha1c : (a1 : Int) ≠ (cport : Int) := by
    intro hh
    exact (show a1 ≠ cport by omega) (by exact_mod_cast hh)
  have ha1v : (a1 : Int) ≠ (vport : Int) := by
    intro hh
    exact (show a1 ≠ vport by omega) (by exact_mod_cast hh)
  have ha2c : (a2 : Int) ≠ (cport : Int) := by
    intro hh
    exact (show a2 ≠ cport by omega) (by exact_mod_cast hh)
  have ha2v : (a2 : Int) ≠ (vport : Int) := by
    intro hh
    exact (show a2 ≠ vport by omega) (by exact_mod_cast hh)
  have hvc : (vport : Int) ≠ (cport : Int) := by
    intro hh
    exact (show vport ≠ cport by omega) (by exact_mod_cast hh)
  unfold _attach_to_container
  rw [hscan]
  simp only [hany1, hany2, if_pos rfl, if_true, eq_self_iff_true]
  cases vscode_enabled <;>
    simp [portMappingKeys, ha1c, ha1v, ha2c, ha2v, hvc]

/-- C5 counterexample: the claim quantifies over *every* container created
by `_init_container`, but a caller-supplied startup entry for the reserved
key `'port'` (which `environment.update` writes over the computed value,
line 387) desynchronizes the reconstruction: attach reads back control port
1 instead of the allocated 30000, and the no-longer-recognized exposed
port 30000 is misclassified as an application port. -/
theorem attach_roundtrip_broken_by_startup_override :
    _attach_to_container (buildEnvironment 30000 40000 none false [("port", "1")])
        (portMappingKeys 30000 40000 [50000, 55000] true) =
      some { _host_port := 1, _container_port := 1, _vscode_port := 40000,
             _app_ports := [30000, 50000, 55000] } ∧
    (1 : Int) ≠ ((30000 : Nat) : Int) := by
  exact ⟨by decide, by decide⟩

/-- Witness for the amended C5 at a concrete creation. -/
theorem attach_reconstructs_creation_ports_witness :
    _attach_to_container (buildEnvironment 30500 40500 none false [("FOO", "bar")])
        (portMappingKeys 30500 40500 [50500, 55500] true) =
      some { _host_port := 30500, _container_port := 30500, _vscode_port := 40500,
             _app_ports := [50500, 55500] } :=
  attach_reconstructs_creation_ports 30500 40500 50500 55500 none false true
    [("FOO", "bar")] (by exact ⟨by decide, by decide⟩) (by exact ⟨by decide, by decide⟩)
    (by exact ⟨by decide, by decide⟩) (by exact ⟨by decide, by decide⟩)
    (by
      intro u hu
      have : u = ("FOO", "bar") := by simpa using hu
      subst this
      exact ⟨by decide, by decide⟩)
